import Mathlib

/-!
Verification development for the `spaces/v1alpha1` API types of the
up-sdk-go repository, centred on the patch-outcome classification logic in
`apis/spaces/v1alpha1/incontrolplaneoverride_types.go`.

Go named string types (`PatchState`, `PatchStateReason`, `metav1.StatusReason`,
`metav1.CauseType`) are modelled as `String`; pointers to values are modelled
as `Option`; the Go `error` interface value handed to `PatchFailure` is
modelled by its observable behaviour there: its `Error()` text and the result
of `errors.As(err, &sErr)` unwrapping to a `*kerrors.StatusError`.
-/

/-- Models `corev1.TypedObjectReference` (k8s.io/api/core/v1): fields
`APIGroup *string`, `Kind string`, `Name string`, `Namespace *string`.
The Go field `Namespace` is called `nspace` here because `namespace` is a
Lean keyword. -/
structure TypedObjectReference where
  apiGroup : Option String
  kind : String
  name : String
  nspace : Option String
deriving DecidableEq, Repr

/-- The constant `PatchStateSuccess PatchState = "Success"`. -/
def PatchStateSuccess : String := "Success"

/-- The constant `PatchStateSkipped PatchState = "Skipped"`. -/
def PatchStateSkipped : String := "Skipped"

/-- The constant `PatchStateError PatchState = "Error"`. -/
def PatchStateError : String := "Error"

/-- The constant `PatchStateReasonConflict PatchStateReason = "Conflict"`. -/
def PatchStateReasonConflict : String := "Conflict"

/-- The constant `PatchStateReasonSchemaMismatch PatchStateReason = "SchemaMismatch"`. -/
def PatchStateReasonSchemaMismatch : String := "SchemaMismatch"

/-- Models `ObjectReference` from `incontrolplaneoverride_types.go`:
an inlined `corev1.TypedObjectReference`, `UID *types.UID`,
`Status PatchState`, `Reason *PatchStateReason`, `Message *string`. -/
structure ObjectReference where
  typedRef : TypedObjectReference
  uid : Option String
  status : String
  reason : Option String
  message : Option String
deriving DecidableEq, Repr

/-- Models `metav1.StatusCause` (k8s.io/apimachinery): `Type CauseType`,
`Message string`, `Field string`. -/
structure StatusCause where
  type : String
  message : String
  field : String
deriving DecidableEq, Repr

/-- Models `metav1.StatusDetails`, restricted to the fields the classifier
reads: `Causes []StatusCause`. -/
structure StatusDetails where
  causes : List StatusCause
deriving DecidableEq, Repr

/-- Models `metav1.Status`, restricted to the fields the classifier reads:
`Reason StatusReason`, `Message string`, `Code int32`, and
`Details *StatusDetails`. -/
structure KStatus where
  reason : String
  message : String
  code : Int
  details : Option StatusDetails
deriving DecidableEq, Repr

/-- Models a Go `error` value as observed by `PatchFailure`: `text` is the
result of `err.Error()`, and `status` is `some st` exactly when
`errors.As(err, &sErr)` succeeds for `sErr *kerrors.StatusError`, with `st`
the value of `sErr.Status()`. A transport-level (non-structured) error has
`status = none`. -/
structure GoError where
  text : String
  status : Option KStatus
deriving DecidableEq, Repr

/-- Models the `knownReasons` set of k8s.io/apimachinery/pkg/api/errors:
every defined `metav1.StatusReason` constant except `StatusReasonUnknown`
(the empty string), which that set deliberately excludes. -/
def knownReasons : List String :=
  ["Unauthorized", "Forbidden", "NotFound", "AlreadyExists", "Conflict",
   "Gone", "Invalid", "ServerTimeout", "Timeout", "TooManyRequests",
   "BadRequest", "MethodNotAllowed", "NotAcceptable",
   "RequestEntityTooLarge", "UnsupportedMediaType", "InternalError",
   "Expired", "ServiceUnavailable"]

/-- Models `kerrors.IsInternalError` applied to an error that unwraps to a
`*kerrors.StatusError` with status `st`: true when the status reason is
`InternalError`, or when the reason is not a known reason and the HTTP code
is 500. -/
def isInternalError (st : KStatus) : Bool :=
  st.reason == "InternalError" ||
    (!(knownReasons.contains st.reason) && st.code == 500)

/-- Character list of the literal left part of the pattern
`failed to create typed patch object.+field not declared in schema`. -/
def patLeft : List Char := "failed to create typed patch object".toList

/-- Character list of the literal right part of that pattern. -/
def patRight : List Char := "field not declared in schema".toList

/-- Models `regexFieldNotDeclared.MatchString`: an unanchored RE2 search for
`failed to create typed patch object.+field not declared in schema`.
It holds exactly when the subject contains the left literal, then at least
one character none of which is a newline (RE2 `.` excludes `\n`), then the
right literal. -/
def matchFieldNotDeclared (s : String) : Bool :=
  let l := s.toList
  (List.range (l.length + 1)).any fun i =>
    patLeft.isPrefixOf (l.drop i) &&
      (List.range (l.length + 1)).any fun j =>
        decide (i + patLeft.length < j) &&
          patRight.isPrefixOf (l.drop j) &&
          ((l.drop (i + patLeft.length)).take (j - (i + patLeft.length))).all
            (fun c => c ≠ '\n')

/-- The loop over `sErr.Status().Details.Causes` in `PatchFailure`: Go enters
the `Details != nil` switch case and flips the state to Skipped/Conflict
exactly when some cause has `Type == metav1.CauseTypeFieldManagerConflict`. -/
def hasFieldManagerConflictCause (d : Option StatusDetails) : Bool :=
  match d with
  | none => false
  | some d => d.causes.any (fun c => c.type == "FieldManagerConflict")

/-- Models `PatchFailure(t corev1.TypedObjectReference, uid *types.UID, err error)`.
When the error unwraps to a structured `*kerrors.StatusError`, the reason is
first set to the verbatim status reason, and the Go `switch` then applies, in
order: (a) internal error with a message matching `regexFieldNotDeclared` →
Skipped/SchemaMismatch; (b) a FieldManagerConflict cause among the status
details → Skipped/Conflict; otherwise the state stays Error. A non-structured
error keeps state Error with a nil reason. The message is always `err.Error()`. -/
def PatchFailure (t : TypedObjectReference) (uid : Option String)
    (err : GoError) : ObjectReference :=
  match err.status with
  | none =>
    { typedRef := t, uid := uid, status := PatchStateError,
      reason := none, message := some err.text }
  | some st =>
    if isInternalError st && matchFieldNotDeclared st.message then
      { typedRef := t, uid := uid, status := PatchStateSkipped,
        reason := some PatchStateReasonSchemaMismatch,
        message := some err.text }
    else if hasFieldManagerConflictCause st.details then
      { typedRef := t, uid := uid, status := PatchStateSkipped,
        reason := some PatchStateReasonConflict,
        message := some err.text }
    else
      { typedRef := t, uid := uid, status := PatchStateError,
        reason := some st.reason, message := some err.text }

/-- Models the `unstructured.Unstructured` accessors `PatchSuccess` uses:
`GetAPIVersion`, `GetKind`, `GetName`, `GetNamespace`, `GetUID`. -/
structure Unstructured where
  apiVersion : String
  kind : String
  name : String
  nspace : String
  uid : String
deriving DecidableEq, Repr

/-- Models `PatchSuccess(u *unstructured.Unstructured)`: an `ObjectReference`
with the object's coordinates and UID and status `PatchStateSuccess`; the
`Reason` and `Message` fields are left at their zero value (nil). -/
def PatchSuccess (u : Unstructured) : ObjectReference :=
  { typedRef :=
      { apiGroup := some u.apiVersion, kind := u.kind,
        name := u.name, nspace := some u.nspace },
    uid := some u.uid,
    status := PatchStateSuccess,
    reason := none,
    message := none }

/-- Models the method `(r *ObjectReference) NotFound()`:
`r.Status == PatchStateError && ptr.Deref(r.Reason, "") == PatchStateReason(metav1.StatusReasonNotFound)`. -/
def ObjectReference.NotFound (r : ObjectReference) : Bool :=
  r.status == PatchStateError && r.reason.getD "" == "NotFound"

/-- Models `valueToStringGenerated` from the generated stringers of
k8s.io/api: `"nil"` for a nil pointer, otherwise `*` followed by the value. -/
def valueToStringGenerated : Option String → String
  | none => "nil"
  | some s => "*" ++ s

/-- Models the generated `(this *TypedObjectReference) String()` stringer of
k8s.io/api/core/v1/generated.pb.go, for a non-nil receiver (the only way
`ObjectReference.String` invokes it). -/
def TypedObjectReference.goString (t : TypedObjectReference) : String :=
  "&TypedObjectReference\x7b" ++
    "APIGroup:" ++ valueToStringGenerated t.apiGroup ++ "," ++
    "Kind:" ++ t.kind ++ "," ++
    "Name:" ++ t.name ++ "," ++
    "Namespace:" ++ valueToStringGenerated t.nspace ++ "," ++
    "\x7d"

/-- Models the method `(r *ObjectReference) String()`; the pointer receiver is
modelled as an `Option`, `none` standing for the nil pointer. The non-nil
branch is the `strings.Join(..., "")` of the source, with
`ptr.Deref(p, "")` modelled as `Option.getD p ""`. -/
def ObjectReference.String : Option ObjectReference → String
  | none => "nil"
  | some r =>
    TypedObjectReference.goString r.typedRef ++ ", " ++
      "UID: '" ++ r.uid.getD "" ++ "', " ++
      "Status: " ++ r.status ++ ", " ++
      "Reason: '" ++ r.reason.getD "" ++ "', " ++
      "Message: '" ++ r.message.getD "" ++ "'"

/-- Models `xpv1.Condition` (crossplane-runtime apis/common/v1): `Type`,
`Status` (a `corev1.ConditionStatus` string), `LastTransitionTime`
(a `metav1.Time`, modelled as an integer instant), `Reason`, `Message`,
`ObservedGeneration`. -/
structure Condition where
  type : String
  status : String
  lastTransitionTime : Int
  reason : String
  message : String
  observedGeneration : Int
deriving DecidableEq, Repr

/-- Models `Deleted()`: the call to `metav1.Now()` is modelled by passing the
current instant as the argument `now`; every other field is as in the source
(`Message` and `ObservedGeneration` stay at their zero values). -/
def Deleted (now : Int) : Condition :=
  { type := "Ready", status := "False", lastTransitionTime := now,
    reason := "Deleted", message := "", observedGeneration := 0 }

/-- Models `Traversed()`: the call to `metav1.Now()` is modelled by passing
the current instant as the argument `now`. -/
def Traversed (now : Int) : Condition :=
  { type := "Ready", status := "True", lastTransitionTime := now,
    reason := "Traversed", message := "", observedGeneration := 0 }

/-- Models `InControlPlaneOverrideStatus`: the inlined `xpv1.ResourceStatus`
contributes the `conditions` list (its inlined `ConditionedStatus`), and the
type itself adds `ObjectRefs []ObjectReference` with tag
`json:"objectRefs,omitempty"`. Go nil slices are modelled as `[]`. -/
structure InControlPlaneOverrideStatus where
  conditions : List Condition
  objectRefs : List ObjectReference
deriving Repr

/-- An abstract JSON document, the target of `encoding/json` marshalling.
Object member order is significant (Go emits struct fields in declaration
order); a `metav1.Time` serializes as an RFC3339 string at second precision,
which is modelled by emitting the second-precision instant as `num`. -/
inductive Json where
  | str (s : String)
  | num (n : Int)
  | arr (xs : List Json)
  | obj (kvs : List (String × Json))

/-- A Go `*string`-like field under `json:",omitempty"`: emitted only when
the pointer is non-nil. -/
def optStrField (k : String) : Option String → List (String × Json)
  | none => []
  | some v => [(k, Json.str v)]

/-- A Go `string` field under `json:",omitempty"`: emitted only when
non-empty. -/
def omitemptyStr (k : String) (v : String) : List (String × Json) :=
  if v == "" then [] else [(k, Json.str v)]

/-- A Go integer field under `json:",omitempty"`: emitted only when
non-zero. -/
def omitemptyNum (k : String) (v : Int) : List (String × Json) :=
  if v == 0 then [] else [(k, Json.num v)]

/-- Marshals `xpv1.Condition` following its json tags: `type`, `status`,
`lastTransitionTime`, `reason`, then `message,omitempty` and
`observedGeneration,omitempty`. -/
def marshalCondition (c : Condition) : Json :=
  Json.obj
    ([("type", Json.str c.type), ("status", Json.str c.status),
      ("lastTransitionTime", Json.num c.lastTransitionTime),
      ("reason", Json.str c.reason)] ++
      omitemptyStr "message" c.message ++
      omitemptyNum "observedGeneration" c.observedGeneration)

/-- Marshals `ObjectReference` following its json tags: the inlined
`TypedObjectReference` members first (`apiGroup,omitempty`, `kind`, `name`,
`namespace,omitempty`), then `uid,omitempty`, `status`, `reason,omitempty`,
`message,omitempty`. -/
def marshalObjectReference (r : ObjectReference) : Json :=
  Json.obj
    (optStrField "apiGroup" r.typedRef.apiGroup ++
      [("kind", Json.str r.typedRef.kind), ("name", Json.str r.typedRef.name)] ++
      optStrField "namespace" r.typedRef.nspace ++
      optStrField "uid" r.uid ++
      [("status", Json.str r.status)] ++
      optStrField "reason" r.reason ++
      optStrField "message" r.message)

/-- Marshals `InControlPlaneOverrideStatus`: `conditions,omitempty` from the
inlined `ResourceStatus`, then `objectRefs,omitempty`; an empty slice is
omitted like a nil one. -/
def marshalStatus (s : InControlPlaneOverrideStatus) : Json :=
  Json.obj
    ((match s.conditions with
      | [] => []
      | _ => [("conditions", Json.arr (s.conditions.map marshalCondition))]) ++
      (match s.objectRefs with
       | [] => []
       | _ => [("objectRefs", Json.arr (s.objectRefs.map marshalObjectReference))]))

/-- Reads a required string member, as `encoding/json` fills a `string`
field from a JSON string. -/
def getStr (kvs : List (String × Json)) (k : String) : Option String :=
  match List.lookup k kvs with
  | some (Json.str s) => some s
  | _ => none

/-- Reads an optional pointer-to-string member: an absent key decodes to the
nil pointer. -/
def getOptStr (kvs : List (String × Json)) (k : String) : Option (Option String) :=
  match List.lookup k kvs with
  | none => some none
  | some (Json.str s) => some (some s)
  | _ => none

/-- Reads a `string,omitempty` member: an absent key decodes to the empty
string, the field's zero value. -/
def getStrOrEmpty (kvs : List (String × Json)) (k : String) : Option String :=
  match List.lookup k kvs with
  | none => some ""
  | some (Json.str s) => some s
  | _ => none

/-- Reads a required numeric member. -/
def getNum (kvs : List (String × Json)) (k : String) : Option Int :=
  match List.lookup k kvs with
  | some (Json.num n) => some n
  | _ => none

/-- Reads a numeric `omitempty` member: an absent key decodes to zero. -/
def getNumOrZero (kvs : List (String × Json)) (k : String) : Option Int :=
  match List.lookup k kvs with
  | none => some 0
  | some (Json.num n) => some n
  | _ => none

/-- Reads a slice member: an absent key decodes to the nil slice. -/
def getArrOrNil (kvs : List (String × Json)) (k : String) : Option (List Json) :=
  match List.lookup k kvs with
  | none => some []
  | some (Json.arr xs) => some xs
  | _ => none

/-- Unmarshals `xpv1.Condition`. -/
def unmarshalCondition : Json → Option Condition
  | Json.obj kvs => do
    let t ← getStr kvs "type"
    let st ← getStr kvs "status"
    let ltt ← getNum kvs "lastTransitionTime"
    let rs ← getStr kvs "reason"
    let msg ← getStrOrEmpty kvs "message"
    let og ← getNumOrZero kvs "observedGeneration"
    some { type := t, status := st, lastTransitionTime := ltt,
           reason := rs, message := msg, observedGeneration := og }
  | _ => none

/-- Unmarshals `ObjectReference`. -/
def unmarshalObjectReference : Json → Option ObjectReference
  | Json.obj kvs => do
    let ag ← getOptStr kvs "apiGroup"
    let k ← getStr kvs "kind"
    let n ← getStr kvs "name"
    let ns ← getOptStr kvs "namespace"
    let uid ← getOptStr kvs "uid"
    let st ← getStr kvs "status"
    let rs ← getOptStr kvs "reason"
    let msg ← getOptStr kvs "message"
    some { typedRef := { apiGroup := ag, kind := k, name := n, nspace := ns },
           uid := uid, status := st, reason := rs, message := msg }
  | _ => none

/-- Unmarshals every element of a JSON array, failing if any element fails. -/
def unmarshalList (f : Json → Option α) : List Json → Option (List α)
  | [] => some []
  | x :: xs => do
    let a ← f x
    let as ← unmarshalList f xs
    some (a :: as)

/-- Unmarshals `InControlPlaneOverrideStatus`. -/
def unmarshalStatus (j : Json) : Option InControlPlaneOverrideStatus :=
  match j with
  | Json.obj kvs => do
    let cj ← getArrOrNil kvs "conditions"
    let conds ← unmarshalList unmarshalCondition cj
    let oj ← getArrOrNil kvs "objectRefs"
    let refs ← unmarshalList unmarshalObjectReference oj
    some { conditions := conds, objectRefs := refs }
  | _ => none

/-- A sample patch target reference used to evaluate the classifier. -/
def sampleRef : TypedObjectReference :=
  { apiGroup := some "example.org/v1", kind := "XExample",
    name := "my-xr", nspace := some "default" }

/-- A structured internal-error status whose message matches the
field-not-declared pattern and whose details also carry a
FieldManagerConflict cause, so that both Skipped rules are applicable. -/
def schemaConflictStatus : KStatus :=
  { reason := "InternalError",
    message := "failed to create typed patch object (default/my-xr; example.org/v1, Kind=XExample): .spec.x: field not declared in schema",
    code := 500,
    details := some
      { causes := [{ type := "FieldManagerConflict",
                     message := "conflict with manager kubectl", field := ".spec.x" }] } }

/-- The error wrapping `schemaConflictStatus`. -/
def schemaConflictErr : GoError :=
  { text := "Internal error occurred: failed to create typed patch object (default/my-xr; example.org/v1, Kind=XExample): .spec.x: field not declared in schema",
    status := some schemaConflictStatus }

/-- A structured internal-error status matching the field-not-declared
pattern, with no details. -/
def schemaMismatchStatus : KStatus :=
  { reason := "InternalError",
    message := "failed to create typed patch object (default/my-xr; example.org/v1, Kind=XExample): .spec.y: field not declared in schema",
    code := 500,
    details := none }

/-- The error wrapping `schemaMismatchStatus`. -/
def schemaMismatchErr : GoError :=
  { text := "Internal error occurred: failed to create typed patch object (default/my-xr; example.org/v1, Kind=XExample): .spec.y: field not declared in schema",
    status := some schemaMismatchStatus }

/-- A structured conflict status carrying a FieldManagerConflict cause. -/
def conflictStatus : KStatus :=
  { reason := "Conflict",
    message := "Apply failed with 1 conflict: conflict with manager kubectl using example.org/v1",
    code := 409,
    details := some
      { causes := [{ type := "FieldManagerConflict",
                     message := "conflict with manager kubectl", field := ".spec.z" }] } }

/-- The error wrapping `conflictStatus`. -/
def conflictErr : GoError :=
  { text := "Apply failed with 1 conflict: conflict with manager kubectl using example.org/v1",
    status := some conflictStatus }

/-- A structured not-found status matching neither Skipped rule. -/
def notFoundStatus : KStatus :=
  { reason := "NotFound",
    message := "xexamples.example.org my-xr not found",
    code := 404,
    details := none }

/-- The error wrapping `notFoundStatus`. -/
def notFoundErr : GoError :=
  { text := "xexamples.example.org my-xr not found",
    status := some notFoundStatus }

/-- A transport-level error that does not unwrap to a StatusError. -/
def transportErr : GoError :=
  { text := "dial tcp 10.0.0.1:6443: i/o timeout",
    status := none }

/-- A sample successfully patched object. -/
def sampleObj : Unstructured :=
  { apiVersion := "example.org/v1", kind := "XExample",
    name := "my-xr", nspace := "default", uid := "uid-42" }

theorem unmarshalCondition_marshal (c : Condition) :
    unmarshalCondition (marshalCondition c) = some c := by
  obtain ⟨t, st, ltt, rs, msg, og⟩ := c
  simp only [marshalCondition, omitemptyStr, omitemptyNum]
  split <;> split <;> simp_all only [beq_iff_eq] <;> subst_vars <;> rfl

theorem unmarshalObjectReference_marshal (r : ObjectReference) :
    unmarshalObjectReference (marshalObjectReference r) = some r := by
  obtain ⟨⟨ag, k, n, ns⟩, uid, st, rs, msg⟩ := r
  cases ag <;> cases ns <;> cases uid <;> cases rs <;> cases msg <;> rfl

theorem unmarshalList_map_eq {α : Type} (f : Json → Option α) (g : α → Json)
    (h : ∀ a, f (g a) = some a) (l : List α) :
    unmarshalList f (l.map g) = some l := by
  induction l with
  | nil => rfl
  | cons x xs ih => simp [unmarshalList, h x, ih]

/-- C1 (counterexample): the claim says an error that both carries a
FieldManagerConflict cause and is an internal error matching the
field-not-declared pattern is classified Skipped/Conflict. The code checks
the schema-mismatch rule first, so such an error is classified
Skipped/SchemaMismatch instead: here is a concrete error in that class whose
classification is not Skipped/Conflict. -/
theorem patchFailure_bothRules_counterexample :
    schemaConflictErr.status = some schemaConflictStatus ∧
    isInternalError schemaConflictStatus = true ∧
    matchFieldNotDeclared schemaConflictStatus.message = true ∧
    hasFieldManagerConflictCause schemaConflictStatus.details = true ∧
    ¬((PatchFailure sampleRef (some "uid-42") schemaConflictErr).status = PatchStateSkipped ∧
      (PatchFailure sampleRef (some "uid-42") schemaConflictErr).reason =
        some PatchStateReasonConflict) :=
  ⟨rfl, rfl, rfl, rfl, by decide⟩

/-- C1 (amended): for every error that both carries a FieldManagerConflict
cause in its status details and is a structured internal error whose message
matches the field-not-declared pattern, classification yields Skipped with
reason SchemaMismatch: the schema-mismatch rule fires before the conflict
rule. -/
theorem patchFailure_schemaMismatch_priority (t : TypedObjectReference)
    (uid : Option String) (err : GoError) (st : KStatus)
    (hs : err.status = some st)
    (hint : isInternalError st = true)
    (hmsg : matchFieldNotDeclared st.message = true)
    (_hfmc : hasFieldManagerConflictCause st.details = true) :
    (PatchFailure t uid err).status = PatchStateSkipped ∧
    (PatchFailure t uid err).reason = some PatchStateReasonSchemaMismatch := by
  simp [PatchFailure, hs, hint, hmsg]

/-- C1 (witness): the amended statement applied at a concrete error carrying
both a FieldManagerConflict cause and a matching internal-error message. -/
theorem patchFailure_schemaMismatch_priority_witness :
    (PatchFailure sampleRef (some "uid-42") schemaConflictErr).status = PatchStateSkipped ∧
    (PatchFailure sampleRef (some "uid-42") schemaConflictErr).reason =
      some PatchStateReasonSchemaMismatch :=
  patchFailure_schemaMismatch_priority sampleRef (some "uid-42") schemaConflictErr
    schemaConflictStatus rfl rfl rfl rfl

/-- C2: every structured API error that is an internal error and whose status
message matches the field-not-declared pattern is classified Skipped with
reason SchemaMismatch. -/
theorem patchFailure_internal_schemaMismatch (t : TypedObjectReference)
    (uid : Option String) (err : GoError) (st : KStatus)
    (hs : err.status = some st)
    (hint : isInternalError st = true)
    (hmsg : matchFieldNotDeclared st.message = true) :
    (PatchFailure t uid err).status = PatchStateSkipped ∧
    (PatchFailure t uid err).reason = some PatchStateReasonSchemaMismatch := by
  simp [PatchFailure, hs, hint, hmsg]

/-- C2 (witness): the statement applied at a concrete internal error whose
message matches the pattern. -/
theorem patchFailure_internal_schemaMismatch_witness :
    (PatchFailure sampleRef (some "uid-42") schemaMismatchErr).status = PatchStateSkipped ∧
    (PatchFailure sampleRef (some "uid-42") schemaMismatchErr).reason =
      some PatchStateReasonSchemaMismatch :=
  patchFailure_internal_schemaMismatch sampleRef (some "uid-42") schemaMismatchErr
    schemaMismatchStatus rfl rfl rfl

/-- C3: every structured API error that is not an internal error matching the
field-not-declared pattern but whose status details contain a
FieldManagerConflict cause is classified Skipped with reason Conflict. -/
theorem patchFailure_fieldManagerConflict (t : TypedObjectReference)
    (uid : Option String) (err : GoError) (st : KStatus)
    (hs : err.status = some st)
    (hnot : (isInternalError st && matchFieldNotDeclared st.message) = false)
    (hfmc : hasFieldManagerConflictCause st.details = true) :
    (PatchFailure t uid err).status = PatchStateSkipped ∧
    (PatchFailure t uid err).reason = some PatchStateReasonConflict := by
  simp [PatchFailure, hs, hnot, hfmc]

/-- C3 (witness): the statement applied at a concrete conflict error carrying
a FieldManagerConflict cause. -/
theorem patchFailure_fieldManagerConflict_witness :
    (PatchFailure sampleRef (some "uid-42") conflictErr).status = PatchStateSkipped ∧
    (PatchFailure sampleRef (some "uid-42") conflictErr).reason =
      some PatchStateReasonConflict :=
  patchFailure_fieldManagerConflict sampleRef (some "uid-42") conflictErr
    conflictStatus rfl rfl rfl

/-- C4: a structured API error matching neither Skipped rule is classified
Error with the verbatim API status reason and the error text as message; and
the NotFound predicate on an ObjectReference holds exactly when the status is
Error and the reason is NotFound. -/
theorem patchFailure_other_structured (t : TypedObjectReference)
    (uid : Option String) (err : GoError) (st : KStatus)
    (hs : err.status = some st)
    (hnot : (isInternalError st && matchFieldNotDeclared st.message) = false)
    (hnfmc : hasFieldManagerConflictCause st.details = false) :
    ((PatchFailure t uid err).status = PatchStateError ∧
      (PatchFailure t uid err).reason = some st.reason ∧
      (PatchFailure t uid err).message = some err.text) ∧
    (∀ r : ObjectReference,
      r.NotFound = true ↔ (r.status = PatchStateError ∧ r.reason = some "NotFound")) := by
  constructor
  · simp [PatchFailure, hs, hnot, hnfmc]
  · intro r
    unfold ObjectReference.NotFound
    cases hr : r.reason with
    | none => simp [hr]
    | some v => simp [hr]

/-- C4 (witness): the statement applied at a concrete structured NotFound
error, whose classification is Error with reason NotFound. -/
theorem patchFailure_other_structured_witness :
    ((PatchFailure sampleRef (some "uid-42") notFoundErr).status = PatchStateError ∧
      (PatchFailure sampleRef (some "uid-42") notFoundErr).reason = some notFoundStatus.reason ∧
      (PatchFailure sampleRef (some "uid-42") notFoundErr).message = some notFoundErr.text) ∧
    (∀ r : ObjectReference,
      r.NotFound = true ↔ (r.status = PatchStateError ∧ r.reason = some "NotFound")) :=
  patchFailure_other_structured sampleRef (some "uid-42") notFoundErr
    notFoundStatus rfl rfl rfl

/-- C5: a non-structured (transport-level) error, one that does not unwrap to
a StatusError, is classified Error with a nil reason and the error text as
message. -/
theorem patchFailure_transport (t : TypedObjectReference)
    (uid : Option String) (err : GoError)
    (hs : err.status = none) :
    (PatchFailure t uid err).status = PatchStateError ∧
    (PatchFailure t uid err).reason = none ∧
    (PatchFailure t uid err).message = some err.text := by
  simp [PatchFailure, hs]

/-- C5 (witness): the statement applied at a concrete transport error. -/
theorem patchFailure_transport_witness :
    (PatchFailure sampleRef (some "uid-42") transportErr).status = PatchStateError ∧
    (PatchFailure sampleRef (some "uid-42") transportErr).reason = none ∧
    (PatchFailure sampleRef (some "uid-42") transportErr).message = some transportErr.text :=
  patchFailure_transport sampleRef (some "uid-42") transportErr rfl

/-- C6: the success record constructor returns an ObjectReference with status
Success carrying the object's UID and a nil reason; and the failure
classifier only ever produces the states Skipped or Error, so a populated
reason goes with those states. -/
theorem patchSuccess_record (u : Unstructured) :
    ((PatchSuccess u).status = PatchStateSuccess ∧
      (PatchSuccess u).uid = some u.uid ∧
      (PatchSuccess u).reason = none) ∧
    (∀ (t : TypedObjectReference) (uid : Option String) (err : GoError),
      (PatchFailure t uid err).status = PatchStateSkipped ∨
        (PatchFailure t uid err).status = PatchStateError) := by
  refine ⟨⟨rfl, rfl, rfl⟩, ?_⟩
  intro t uid err
  obtain ⟨tx, s⟩ := err
  cases s with
  | none => exact Or.inr rfl
  | some st =>
    simp only [PatchFailure]
    split
    · exact Or.inl rfl
    · split
      · exact Or.inl rfl
      · exact Or.inr rfl

/-- C7: the classifier is total (a total function of its inputs, structured
or not) and deterministic: equal target references, UIDs and error values
yield equal PatchState and PatchStateReason, and the message is always
defined, holding the error text. -/
theorem patchFailure_deterministic (t₁ t₂ : TypedObjectReference)
    (uid₁ uid₂ : Option String) (err₁ err₂ : GoError)
    (ht : t₁ = t₂) (hu : uid₁ = uid₂) (he : err₁ = err₂) :
    (PatchFailure t₁ uid₁ err₁).status = (PatchFailure t₂ uid₂ err₂).status ∧
    (PatchFailure t₁ uid₁ err₁).reason = (PatchFailure t₂ uid₂ err₂).reason ∧
    (PatchFailure t₁ uid₁ err₁).message = some err₁.text := by
  subst ht; subst hu; subst he
  refine ⟨rfl, rfl, ?_⟩
  obtain ⟨tx, s⟩ := err₁
  cases s with
  | none => rfl
  | some st =>
    simp only [PatchFailure]
    split
    · rfl
    · split <;> rfl

/-- C7 (witness): the statement applied twice to the same concrete inputs. -/
theorem patchFailure_deterministic_witness :
    (PatchFailure sampleRef (some "uid-42") conflictErr).status =
      (PatchFailure sampleRef (some "uid-42") conflictErr).status ∧
    (PatchFailure sampleRef (some "uid-42") conflictErr).reason =
      (PatchFailure sampleRef (some "uid-42") conflictErr).reason ∧
    (PatchFailure sampleRef (some "uid-42") conflictErr).message = some conflictErr.text :=
  patchFailure_deterministic sampleRef sampleRef (some "uid-42") (some "uid-42")
    conflictErr conflictErr rfl rfl rfl

/-- C8: the Traversed condition constructor returns type Ready, status True,
reason Traversed; the Deleted condition constructor returns type Ready,
status False, reason Deleted, at every instant. -/
theorem conditions_traversed_deleted (now : Int) :
    (Traversed now).type = "Ready" ∧
    (Traversed now).status = "True" ∧
    (Traversed now).reason = "Traversed" ∧
    (Deleted now).type = "Ready" ∧
    (Deleted now).status = "False" ∧
    (Deleted now).reason = "Deleted" :=
  ⟨rfl, rfl, rfl, rfl, rfl, rfl⟩

/-- C9: serializing an `InControlPlaneOverrideStatus` to JSON and
deserializing the result yields the identical value, the order of the
`objectRefs` sequence preserved by the list round-trip. -/
theorem status_roundTrip (s : InControlPlaneOverrideStatus) :
    unmarshalStatus (marshalStatus s) = some s := by
  obtain ⟨conds, refs⟩ := s
  have hc : unmarshalList unmarshalCondition (conds.map marshalCondition) = some conds :=
    unmarshalList_map_eq _ _ unmarshalCondition_marshal conds
  have hr : unmarshalList unmarshalObjectReference (refs.map marshalObjectReference) = some refs :=
    unmarshalList_map_eq _ _ unmarshalObjectReference_marshal refs
  cases conds <;> cases refs <;>
    simp_all [marshalStatus, unmarshalStatus, getArrOrNil, List.lookup]

/-- C10: the String method on a nil ObjectReference pointer returns the
literal "nil" without dereferencing, and on a non-nil receiver it returns a
string containing the UID, status, reason and message, with unset optional
fields rendered as empty strings (`Option.getD _ ""`). -/
theorem objectReference_string_total :
    ObjectReference.String none = "nil" ∧
    ∀ r : ObjectReference, ∃ a b c d : String,
      ObjectReference.String (some r) =
        a ++ (r.uid.getD "" ++ (b ++ (r.status ++ (c ++ (r.reason.getD "" ++
          (d ++ (r.message.getD "" ++ "'"))))))) := by
  refine ⟨rfl, fun r => ⟨TypedObjectReference.goString r.typedRef ++ ", " ++ "UID: '",
    "', " ++ "Status: ", ", " ++ "Reason: '", "', " ++ "Message: '", ?_⟩⟩
  simp only [ObjectReference.String, String.append_assoc]
